import Mathlib

/-!
Verification of the asset-loading and scene-initialization subsystem of the
coming22 repository.  Each definition is a shallow embedding of the
corresponding TypeScript function; theorems settle the frozen claims about
the subsystem.  Machine numbers that only flow through comparisons are
modelled as rationals; object identity is modelled with an explicit heap of
numeric ids; the JavaScript event loop is modelled as deterministic
sequential steps (arrivals of concurrent callers, then promise settlement).
-/

set_option autoImplicit false

namespace Coming22

/-! ## Path resolution: AssetLoader.getAssetPath

The source first ensures the relative path starts with a slash, then
concatenates with the configured base path and calls
`.replace('//', '/')`.  JavaScript `String.replace` with a string pattern
replaces only the FIRST occurrence, which is modelled exactly below. -/

/-- `relativePath.startsWith('/')` on the character list of the string. -/
def startsWithSlashChars : List Char → Bool
  | [] => false
  | c :: _ => decide (c = '/')

/-- Boolean prefix test on character lists (used by `replaceFirst`). -/
def isPrefixOfChars : List Char → List Char → Bool
  | [], _ => true
  | _ :: _, [] => false
  | p :: ps, c :: cs => decide (p = c) && isPrefixOfChars ps cs

/-- JavaScript `s.replace(pat, rep)` with a non-empty string pattern:
only the first occurrence of `pat` in `s` is replaced by `rep`. -/
def replaceFirst (pat rep : List Char) : List Char → List Char
  | [] => []
  | c :: cs =>
    if isPrefixOfChars pat (c :: cs) then rep ++ (c :: cs).drop pat.length
    else c :: replaceFirst pat rep cs

/-- `AssetLoader.getAssetPath` on character lists: normalize the relative
path to start with `'/'`, concatenate with the base path, then replace the
first `"//"` with `"/"`. -/
def getAssetPathChars (basePath relativePath : List Char) : List Char :=
  let normalizedPath :=
    if startsWithSlashChars relativePath then relativePath
    else '/' :: relativePath
  replaceFirst ['/', '/'] ['/'] (basePath ++ normalizedPath)

/-- `AssetLoader.getAssetPath` on strings. -/
def getAssetPath (basePath relativePath : String) : String :=
  ⟨getAssetPathChars basePath.data relativePath.data⟩

/-- Whether a character list contains the substring `"//"` anywhere. -/
def containsDoubleSlash : List Char → Bool
  | [] => false
  | c :: rest => (decide (c = '/') && startsWithSlashChars rest) || containsDoubleSlash rest

/-- Whether a character list starts with exactly one `'/'`. -/
def exactlyOneLeadingSlash : List Char → Bool
  | [] => false
  | c :: rest => decide (c = '/') && !startsWithSlashChars rest

/-! ## Retry policy: loadAssetWithRetry

The source loop runs `attempt` from `0` to `maxRetries - 1`; a failed
attempt other than the last sleeps `2 ^ attempt * 1000` milliseconds.
After exhausting the attempts it throws `AssetLoadError` with context
`{assetName, attempts: maxRetries, originalError: lastError}`.  The loop is
embedded with the remaining-iteration count as structural fuel
(`fuel = maxRetries - attempt`, exactly the number of iterations left), and
the observable steps (operation invocations and backoff sleeps) are
recorded in a trace. -/

/-- Context object carried by `AssetLoadError`.  `originalError` is `none`
exactly when no attempt ever ran (the TypeScript `lastError!` would be
`undefined` in that case). -/
structure AssetLoadContext where
  assetName : String
  attempts : Nat
  originalError : Option Nat
  deriving DecidableEq

/-- Observable events of a retrying load: invocation of the underlying
operation (with the zero-based loop index of the attempt) and backoff
sleeps (milliseconds). -/
inductive RetryEvent where
  | invoke (attempt : Nat)
  | wait (ms : Nat)
  deriving DecidableEq

/-- The retry loop of `loadAssetWithRetry`.  `op` maps the zero-based
attempt index to that attempt's outcome (error payloads are numeric codes);
`fuel` is the number of iterations left, `attempt` the current loop index,
`lastError` the last stored error. -/
def retryLoop {α : Type} (op : Nat → Except Nat α) (maxRetries : Nat) :
    Nat → Nat → Option Nat → List RetryEvent × Except (Option Nat) α
  | 0, _, lastError => ([], Except.error lastError)
  | fuel + 1, attempt, _ =>
    match op attempt with
    | Except.ok v => ([RetryEvent.invoke attempt], Except.ok v)
    | Except.error e =>
      let rest := retryLoop op maxRetries fuel (attempt + 1) (some e)
      if attempt < maxRetries - 1 then
        (RetryEvent.invoke attempt :: RetryEvent.wait (2 ^ attempt * 1000) :: rest.1, rest.2)
      else
        (RetryEvent.invoke attempt :: rest.1, rest.2)

/-- `loadAssetWithRetry(loadFn, assetName, maxRetries)`: run the retry loop
from attempt `0`; on exhaustion wrap the last error in an
`AssetLoadError`-style context. -/
def loadAssetWithRetry {α : Type} (op : Nat → Except Nat α) (assetName : String)
    (maxRetries : Nat) : List RetryEvent × Except AssetLoadContext α :=
  let r := retryLoop op maxRetries maxRetries 0 none
  (r.1,
    match r.2 with
    | Except.ok v => Except.ok v
    | Except.error lastError => Except.error ⟨assetName, maxRetries, lastError⟩)

/-- One attempt-plus-backoff segment of the trace the spec describes:
attempt `i + 1` (one-based) followed by a `2 ^ i * 1000` ms wait. -/
def retryStep (i : Nat) : List RetryEvent :=
  [RetryEvent.invoke i, RetryEvent.wait (2 ^ i * 1000)]

/-- The trace the spec prescribes for an operation that always fails:
attempts `1 .. maxAttempts` (zero-based indices `0 .. maxAttempts - 1`),
with a `2 ^ (n - 1) * 1000` ms wait after each attempt `n` except the last.
Stated from the spec's words, to be compared with the trace the source
produces. -/
def retrySpecTrace (maxAttempts : Nat) : List RetryEvent :=
  (List.range' 0 (maxAttempts - 1)).flatMap retryStep ++ [RetryEvent.invoke (maxAttempts - 1)]

/-- Whether an event is an operation invocation. -/
def isInvoke : RetryEvent → Bool
  | RetryEvent.invoke _ => true
  | RetryEvent.wait _ => false

/-- Number of operation invocations in a trace. -/
def countInvokes (trace : List RetryEvent) : Nat :=
  trace.countP isInvoke

/-! ## AssetLoader cache: loadGLB / loadTexture

Object identity is made explicit: a heap maps numeric object ids to their
(abstract, numeric) geometry/material content, and the loader cache maps
resolved paths to the id of the cached object.  `loadGLB` resolves the
path, returns a `.clone()` of the cached scene on a hit (a fresh id whose
content is read from the heap at call time), and on a miss fetches,
caches the loaded object itself and resolves with that very object.
`loadTexture` is identical except that a cache hit returns the cached id
itself.  `fetch` models the network: the decoded content for a resolved
path, or `none` for a failing load. -/

/-- First-match association lookup (JavaScript `Map.get`, with updates
modelled as prepended entries). -/
def alookup {α β : Type} [DecidableEq α] : List (α × β) → α → Option β
  | [], _ => none
  | (k, v) :: es, a => if a = k then some v else alookup es a

/-- State of an `AssetLoader`: configured base path, heap of live objects
(id to content) and the `loadedAssets` cache (resolved path to id), plus
the next fresh id. -/
structure LoaderState where
  basePath : String
  heap : List (Nat × Nat)
  cache : List (String × Nat)
  nextId : Nat
  deriving DecidableEq

/-- `AssetLoader.loadGLB`: on a cache hit resolve with a clone (fresh id,
content copied from the cached object at call time); on a miss fetch,
cache the loaded scene itself and resolve with it; reject if the fetch
fails. -/
def loadGLB (fetch : String → Option Nat) (s : LoaderState) (path : String) :
    Except Unit Nat × LoaderState :=
  let fullPath := getAssetPath s.basePath path
  match alookup s.cache fullPath with
  | some id =>
    let content := (alookup s.heap id).getD 0
    (Except.ok s.nextId, ⟨s.basePath, (s.nextId, content) :: s.heap, s.cache, s.nextId + 1⟩)
  | none =>
    match fetch fullPath with
    | some content =>
      (Except.ok s.nextId,
        ⟨s.basePath, (s.nextId, content) :: s.heap, (fullPath, s.nextId) :: s.cache,
          s.nextId + 1⟩)
    | none => (Except.error (), s)

/-- `AssetLoader.loadTexture`: same shape as `loadGLB` but a cache hit
resolves with the cached texture itself (no clone). -/
def loadTexture (fetch : String → Option Nat) (s : LoaderState) (path : String) :
    Except Unit Nat × LoaderState :=
  let fullPath := getAssetPath s.basePath path
  match alookup s.cache fullPath with
  | some id => (Except.ok id, s)
  | none =>
    match fetch fullPath with
    | some content =>
      (Except.ok s.nextId,
        ⟨s.basePath, (s.nextId, content) :: s.heap, (fullPath, s.nextId) :: s.cache,
          s.nextId + 1⟩)
    | none => (Except.error (), s)

/-- In-place mutation of a live object through a handle: overwrite the
content stored at `id` (modelled by shadowing the heap entry). -/
def mutateModelContent (s : LoaderState) (id content : Nat) : LoaderState :=
  ⟨s.basePath, (id, content) :: s.heap, s.cache, s.nextId⟩

/-! ## Placeholder swap: loadGLBWithPlaceholder

The scene root is a list of child object ids.  The placeholder is
constructed fresh (its id is a parameter, assumed not already a child),
attached with `scene.add` (append), and the real model is loaded through
`loadAssetWithRetry(op, path, 3)`.  On success the placeholder is removed
(first occurrence, as `THREE.Object3D.remove`) and disposed; on failure the
scene is left untouched and the error is rethrown. -/

deriving instance DecidableEq for Except

/-- Result of `loadGLBWithPlaceholder`: the scene root's children after
the model promise settled, the ids disposed, and the settled model
promise. -/
structure PlaceholderResult where
  children : List Nat
  disposed : List Nat
  result : Except AssetLoadContext Nat
  deriving DecidableEq

/-- `loadGLBWithPlaceholder`: attach the placeholder, retry-load the real
model (3 attempts, the path as asset name); swap-and-dispose on success,
keep the placeholder and propagate the error on failure. -/
def loadGLBWithPlaceholder (op : Nat → Except Nat Nat) (path : String)
    (children : List Nat) (placeholder : Nat) : PlaceholderResult :=
  let childrenAfterAdd := children ++ [placeholder]
  match (loadAssetWithRetry op path 3).2 with
  | Except.ok realModel =>
    ⟨childrenAfterAdd.erase placeholder, [placeholder], Except.ok realModel⟩
  | Except.error e =>
    ⟨childrenAfterAdd, [], Except.error e⟩

/-! ## Decoder singleton: LazyDecoderLoader

JavaScript executes each synchronous section atomically, so `N` concurrent
`initializeDecoders()` calls are `N` sequential synchronous arrivals
followed by the settlement of the shared in-flight promise.  The arrival
step is embedded below; `performInitialization` is summarised by the
bootstrap counter (its body builds the Draco loader and schedules the
resolve), and in-flight promises carry numeric ids.  Settlement runs the
starter's continuation: on success it sets `initialized`, on failure it
clears `initPromise` and rethrows; joiners' continuations do nothing. -/

/-- Instance state of `LazyDecoderLoader` relevant to initialization:
the `initialized` flag, the in-flight promise (by id), how many times
`performInitialization` has run, and the next fresh promise id. -/
structure DecState where
  initialized : Bool
  initPromise : Option Nat
  bootstrapCount : Nat
  nextPid : Nat
  deriving DecidableEq

/-- A fresh `LazyDecoderLoader` instance: nothing initialized, no promise
in flight, no bootstrap ever run. -/
def freshDecoderState : DecState := ⟨false, none, 0, 0⟩

/-- What a single `initializeDecoders()` arrival observes: resolve
immediately (already initialized), join the in-flight promise, or start a
fresh initialization and await the new promise. -/
inductive InitCallRes where
  | alreadyDone
  | joined (pid : Nat)
  | started (pid : Nat)
  deriving DecidableEq

/-- The synchronous prefix of `initializeDecoders()`: return immediately if
initialized; return the existing promise if one is in flight; otherwise
start `performInitialization` (counted) and store its promise. -/
def initializeDecoders (s : DecState) : InitCallRes × DecState :=
  if s.initialized then (InitCallRes.alreadyDone, s)
  else
    match s.initPromise with
    | some pid => (InitCallRes.joined pid, s)
    | none =>
      (InitCallRes.started s.nextPid,
        ⟨false, some s.nextPid, s.bootstrapCount + 1, s.nextPid + 1⟩)

/-- `n` concurrent callers arriving before the in-flight promise settles. -/
def runCalls : Nat → DecState → List InitCallRes × DecState
  | 0, s => ([], s)
  | n + 1, s =>
    let first := initializeDecoders s
    let rest := runCalls n first.2
    (first.1 :: rest.1, rest.2)

/-- Settlement of the in-flight promise, as executed by the starter's
continuation: `await` succeeded (set `initialized`) or threw (clear
`initPromise` so a later call can retry, and rethrow). -/
def settleStarter (success : Bool) (s : DecState) : DecState :=
  if success then ⟨true, s.initPromise, s.bootstrapCount, s.nextPid⟩
  else ⟨s.initialized, none, s.bootstrapCount, s.nextPid⟩

/-- Outcome a caller observes once the shared promise settles with
`success`. -/
def callerOutcome (success : Bool) : InitCallRes → Bool
  | InitCallRes.alreadyDone => true
  | InitCallRes.joined _ => success
  | InitCallRes.started _ => success

/-- The promise a caller awaits, if any. -/
def awaitedPid : InitCallRes → Option Nat
  | InitCallRes.alreadyDone => none
  | InitCallRes.joined pid => some pid
  | InitCallRes.started pid => some pid

/-- Configuration passed to `LazyDecoderLoader.getInstance` on first use. -/
structure DecoderConfig where
  dracoPath : String
  ktx2Path : Option String
  workerLimit : Nat
  deriving DecidableEq

/-- A constructed `LazyDecoderLoader` singleton instance. -/
structure LazyDecoderInstance where
  config : DecoderConfig
  state : DecState
  deriving DecidableEq

/-- A thrown JavaScript error, identified by its message. -/
inductive JsError where
  | error (message : String)
  deriving DecidableEq

/-- `LazyDecoderLoader.getInstance(config?)`: return the existing singleton
if any; otherwise require a config (throwing the configuration error if it
is missing) and construct a fresh instance.  The second component is the
static singleton variable after the call. -/
def getInstance (instVar : Option LazyDecoderInstance) (config : Option DecoderConfig) :
    Except JsError LazyDecoderInstance × Option LazyDecoderInstance :=
  match instVar with
  | some i => (Except.ok i, some i)
  | none =>
    match config with
    | none =>
      (Except.error (JsError.error "LazyDecoderLoader: config required for first initialization"),
        none)
    | some c =>
      (Except.ok ⟨c, freshDecoderState⟩, some ⟨c, freshDecoderState⟩)

/-- Total number of decoder bootstraps ever run, given the singleton
variable. -/
def totalBootstraps : Option LazyDecoderInstance → Nat
  | none => 0
  | some i => i.state.bootstrapCount

/-! ## Transforms: SceneInitializer.validateTransforms and TransformValidator

Numeric components are modelled as rationals; the validation logic only
subtracts, takes absolute values and compares against the tolerance.
Error and warning messages are modelled structurally (constructor plus the
expected/actual payloads the source interpolates into the message). -/

/-- A 3-component vector. -/
structure Vec3 where
  x : ℚ
  y : ℚ
  z : ℚ
  deriving DecidableEq

/-- One entry of the transform configuration:
`{position, rotation, scale: number | [x, y, z]}`. -/
structure ObjTransform where
  position : Vec3
  rotation : Vec3
  scale : Sum ℚ Vec3
  deriving DecidableEq

/-- A live `THREE.Object3D`, as far as this subsystem observes it: name,
local transform, and the cached world matrix.  For a root object the world
matrix is the composition of position, rotation and scale, so the cached
matrix is modelled as the transform triple it was last computed from. -/
structure Obj3D where
  name : String
  position : Vec3
  rotation : Vec3
  scale : Vec3
  matrixWorld : Vec3 × Vec3 × Vec3
  deriving DecidableEq

/-- A scalar configuration scale `s` expands to `[s, s, s]`. -/
def expandScale : Sum ℚ Vec3 → Vec3
  | Sum.inl s => ⟨s, s, s⟩
  | Sum.inr v => v

/-- `Math.abs` on rationals. -/
def qabs (q : ℚ) : ℚ := if q < 0 then -q else q

/-- The per-axis absolute differences between a live value and the
configured value. -/
def axisDiffs (actual expected : Vec3) : Vec3 :=
  ⟨qabs (actual.x - expected.x), qabs (actual.y - expected.y), qabs (actual.z - expected.z)⟩

/-- `diffs.some(diff => diff > tolerance)`. -/
def anyExceeds (d : Vec3) (tolerance : ℚ) : Bool :=
  decide (tolerance < d.x) || decide (tolerance < d.y) || decide (tolerance < d.z)

/-- All three per-axis absolute differences are within the tolerance
(the spec's reading of a matching attribute). -/
def withinTolerance3 (actual expected : Vec3) (tolerance : ℚ) : Prop :=
  qabs (actual.x - expected.x) ≤ tolerance ∧ qabs (actual.y - expected.y) ≤ tolerance ∧
    qabs (actual.z - expected.z) ≤ tolerance

instance (actual expected : Vec3) (tolerance : ℚ) :
    Decidable (withinTolerance3 actual expected tolerance) := by
  unfold withinTolerance3; infer_instance

/-- An entry of `result.errors`: which attribute mismatched, for which
object, with the expected and actual values the message interpolates; or a
validation failure caught by the surrounding try/catch. -/
inductive VError where
  | positionMismatch (objectName : String) (expected actual : Vec3)
  | rotationMismatch (objectName : String) (expected actual : Vec3)
  | scaleMismatch (objectName : String) (expected actual : Vec3)
  | validationFailure (message : String)
  deriving DecidableEq

/-- An entry of `result.warnings`. -/
inductive VWarning where
  | noConfig (objectName : String)
  deriving DecidableEq

/-- `{valid, errors, warnings}` returned by `validateTransforms`. -/
structure TransformValidationRes where
  valid : Bool
  errors : List VError
  warnings : List VWarning
  deriving DecidableEq

/-- The comparison core of `SceneInitializer.validateTransforms`, once the
configuration is available: look up the object, warn (staying valid) if it
has no entry, otherwise check position, rotation and expanded scale
per-axis against the tolerance, collecting one error per
mismatched attribute; `valid` is false iff an error was pushed. -/
def validateTransformsPure (cfg : List (String × ObjTransform)) (objectName : String)
    (object : Obj3D) (tolerance : ℚ) : TransformValidationRes :=
  match alookup cfg objectName with
  | none => ⟨true, [], [VWarning.noConfig objectName]⟩
  | some expected =>
    let posBad := anyExceeds (axisDiffs object.position expected.position) tolerance
    let rotBad := anyExceeds (axisDiffs object.rotation expected.rotation) tolerance
    let expectedScale := expandScale expected.scale
    let scaleBad := anyExceeds (axisDiffs object.scale expectedScale) tolerance
    ⟨!posBad && !rotBad && !scaleBad,
      (if posBad then [VError.positionMismatch objectName expected.position object.position]
       else []) ++
      (if rotBad then [VError.rotationMismatch objectName expected.rotation object.rotation]
       else []) ++
      (if scaleBad then [VError.scaleMismatch objectName expectedScale object.scale]
       else []),
      []⟩

/-- The memoized transform configuration held by a `SceneInitializer`. -/
structure SceneInitializerState where
  transforms : Option (List (String × ObjTransform))
  deriving DecidableEq

/-- `SceneInitializer.validateTransforms(objectName, object, tolerance)`:
skip everything when validation is disabled; load (and memoize) the
configuration on first use, a failed load being caught and reported as an
invalid result; then run the comparison core.  `fetchTransforms` models the
outcome of fetching the configuration file. -/
def validateTransforms (enableValidation : Bool)
    (fetchTransforms : Except String (List (String × ObjTransform)))
    (st : SceneInitializerState) (objectName : String) (object : Obj3D)
    (tolerance : ℚ) : TransformValidationRes × SceneInitializerState :=
  if enableValidation = false then (⟨true, [], []⟩, st)
  else
    match st.transforms with
    | some cfg => (validateTransformsPure cfg objectName object tolerance, st)
    | none =>
      match fetchTransforms with
      | Except.ok cfg => (validateTransformsPure cfg objectName object tolerance, ⟨some cfg⟩)
      | Except.error msg => (⟨false, [VError.validationFailure msg], []⟩, st)

/-- A `TransformSnapshot` captured by `TransformValidator.captureSnapshot`. -/
structure TransformSnapshot where
  name : String
  position : Vec3
  rotation : Vec3
  scale : Vec3
  worldMatrix : Vec3 × Vec3 × Vec3
  timestamp : Nat
  environment : Option String
  deriving DecidableEq

/-- An entry of `comparison.issues`: which attribute's maximal difference
exceeded the tolerance, with the values the message interpolates. -/
inductive ComparisonIssue where
  | positionExceeds (diff tolerance : ℚ)
  | rotationExceeds (diff tolerance : ℚ)
  | scaleExceeds (diff tolerance : ℚ)
  deriving DecidableEq

/-- The comparison record returned by
`TransformValidator.compareSnapshots`. -/
structure TransformComparison where
  objectName : String
  positionDiff : Vec3
  rotationDiff : Vec3
  scaleDiff : Vec3
  maxPositionDiff : ℚ
  maxRotationDiff : ℚ
  maxScaleDiff : ℚ
  withinTolerance : Bool
  issues : List ComparisonIssue
  deriving DecidableEq

/-- `TransformValidator.compareSnapshots(a, b)` with the validator's
tolerance: per-axis absolute differences, their maxima, the tolerance
verdict, and one issue per attribute whose maximal difference exceeds the
tolerance. -/
def compareSnapshots (tolerance : ℚ) (a b : TransformSnapshot) : TransformComparison :=
  let positionDiff := axisDiffs a.position b.position
  let rotationDiff := axisDiffs a.rotation b.rotation
  let scaleDiff := axisDiffs a.scale b.scale
  let maxPositionDiff := max (max positionDiff.x positionDiff.y) positionDiff.z
  let maxRotationDiff := max (max rotationDiff.x rotationDiff.y) rotationDiff.z
  let maxScaleDiff := max (max scaleDiff.x scaleDiff.y) scaleDiff.z
  ⟨a.name, positionDiff, rotationDiff, scaleDiff,
    maxPositionDiff, maxRotationDiff, maxScaleDiff,
    decide (maxPositionDiff ≤ tolerance) && decide (maxRotationDiff ≤ tolerance) &&
      decide (maxScaleDiff ≤ tolerance),
    (if tolerance < maxPositionDiff then [ComparisonIssue.positionExceeds maxPositionDiff tolerance]
     else []) ++
    (if tolerance < maxRotationDiff then [ComparisonIssue.rotationExceeds maxRotationDiff tolerance]
     else []) ++
    (if tolerance < maxScaleDiff then [ComparisonIssue.scaleExceeds maxScaleDiff tolerance]
     else [])⟩

/-- `THREE.Object3D.updateMatrixWorld(true)`: recompute the cached world
matrix from the current local transform. -/
def updateMatrixWorld (o : Obj3D) : Obj3D :=
  ⟨o.name, o.position, o.rotation, o.scale, (o.position, o.rotation, o.scale)⟩

/-- `TransformValidator.captureSnapshot(object, environment?)`: force a
world-matrix update, then record name (defaulting to "unnamed"), local
transform, world matrix, timestamp and environment tag.  The second
component is the live object after the call. -/
def captureSnapshot (o : Obj3D) (now : Nat) (environment : Option String) :
    TransformSnapshot × Obj3D :=
  let o2 := updateMatrixWorld o
  (⟨if o2.name = "" then "unnamed" else o2.name,
    o2.position, o2.rotation, o2.scale, o2.matrixWorld, now, environment⟩, o2)

/-! ## Concrete inputs used by the witnesses

The Batteries rational arithmetic operations are `[irreducible]`, which
blocks `decide`-style evaluation of concrete rationals; they are restored
to their default reducibility for the evaluations below. -/

attribute [local semireducible] Rat.sub Rat.add Rat.mul Rat.inv

/-- A load operation that fails on every attempt (error code `n + 10` on
attempt `n`). -/
def alwaysFailOp : Nat → Except Nat Unit := fun n => Except.error (n + 10)

/-- A placeholder-scenario load operation that fails on every attempt. -/
def witPhFailOp : Nat → Except Nat Nat := fun n => Except.error (n + 1)

/-- A placeholder-scenario load operation that succeeds immediately. -/
def witPhOkOp : Nat → Except Nat Nat := fun _ => Except.ok 7

/-- A network that decodes every resolved path to content `42`. -/
def witFetch : String → Option Nat := fun _ => some 42

/-- A fresh `AssetLoader` with the default base path `"/"`. -/
def witLoader : LoaderState := ⟨"/", [], [], 0⟩

/-- A concrete relative path without double slashes. -/
def witRelPath : List Char := "model/truck.glb".data

/-- The Scenario A/B transform configuration entry for the truck. -/
def witTruckTransform : ObjTransform :=
  ⟨⟨11/10, -(11/10), -(53/10)⟩, ⟨0, 314159/100000, 0⟩, Sum.inl (3/2)⟩

/-- A transform configuration holding only the truck entry. -/
def witCfg : List (String × ObjTransform) := [("truck", witTruckTransform)]

/-- The truck object of Scenario B: live position 0.05 off on Z. -/
def witTruckObj : Obj3D :=
  ⟨"truck", ⟨11/10, -(11/10), -(535/100)⟩, ⟨0, 314159/100000, 0⟩, ⟨3/2, 3/2, 3/2⟩,
    (⟨0, 0, 0⟩, ⟨0, 0, 0⟩, ⟨1, 1, 1⟩)⟩

/-- An object whose cached world matrix is stale: the position moved to
`(1, 0, 0)` but the matrix still records the identity transform. -/
def staleTruck : Obj3D :=
  ⟨"truck", ⟨1, 0, 0⟩, ⟨0, 0, 0⟩, ⟨1, 1, 1⟩, (⟨0, 0, 0⟩, ⟨0, 0, 0⟩, ⟨1, 1, 1⟩)⟩

/-- An object whose cached world matrix is already up to date. -/
def freshSnapObj : Obj3D :=
  ⟨"sensor", ⟨2, 3, 4⟩, ⟨0, 0, 0⟩, ⟨1, 1, 1⟩, (⟨2, 3, 4⟩, ⟨0, 0, 0⟩, ⟨1, 1, 1⟩)⟩

/-- A concrete captured snapshot. -/
def witSnap : TransformSnapshot :=
  ⟨"truck", ⟨1, 2, 3⟩, ⟨0, 0, 0⟩, ⟨1, 1, 1⟩, (⟨1, 2, 3⟩, ⟨0, 0, 0⟩, ⟨1, 1, 1⟩), 7,
    some "production"⟩

/-! ## Helper lemmas -/

lemma retryLoop_always_fails {α : Type} (errs : Nat → Nat) (maxRetries : Nat) :
    ∀ (k a : Nat) (le : Option Nat), a + k = maxRetries → 1 ≤ k →
      retryLoop (α := α) (fun n => Except.error (errs n)) maxRetries k a le =
        ((List.range' a (k - 1)).flatMap retryStep ++ [RetryEvent.invoke (a + k - 1)],
          Except.error (some (errs (a + k - 1)))) := by
  intro k
  induction k with
  | zero => intro a le _ hk; omega
  | succ n ih =>
    intro a le hsum _
    cases n with
    | zero =>
      have hlt : ¬ a < maxRetries - 1 := by omega
      simp [retryLoop, hlt, List.range']
    | succ m =>
      have hlt : a < maxRetries - 1 := by omega
      have ihh := ih (a + 1) (some (errs a)) (by omega) (by omega)
      have step : retryLoop (fun n => Except.error (errs n)) maxRetries (m + 1 + 1) a le =
          (RetryEvent.invoke a :: RetryEvent.wait (2 ^ a * 1000) ::
            (retryLoop (α := α) (fun n => Except.error (errs n)) maxRetries (m + 1) (a + 1)
              (some (errs a))).1,
           (retryLoop (α := α) (fun n => Except.error (errs n)) maxRetries (m + 1) (a + 1)
              (some (errs a))).2) := by
        conv_lhs => rw [retryLoop]
        simp [hlt]
      rw [step, ihh]
      have h1 : a + 1 + (m + 1) - 1 = a + (m + 1 + 1) - 1 := by omega
      rw [h1]
      simp [List.range', retryStep]

lemma loadAssetWithRetry_always_fails {α : Type} (errs : Nat → Nat) (assetName : String)
    (maxRetries : Nat) (h : 1 ≤ maxRetries) :
    loadAssetWithRetry (α := α) (fun n => Except.error (errs n)) assetName maxRetries =
      (retrySpecTrace maxRetries,
        Except.error ⟨assetName, maxRetries, some (errs (maxRetries - 1))⟩) := by
  have key := retryLoop_always_fails (α := α) errs maxRetries maxRetries 0 none (by omega) h
  simp [loadAssetWithRetry, key, retrySpecTrace]

lemma countInvokes_flatMap_range' : ∀ (n a : Nat),
    countInvokes ((List.range' a n).flatMap retryStep) = n := by
  intro n
  induction n with
  | zero => intro a; simp [countInvokes]
  | succ m ih =>
    intro a
    simp [List.range', countInvokes, retryStep, List.countP_cons, isInvoke] at *
    exact ih (a + 1)

lemma countInvokes_retrySpecTrace (maxAttempts : Nat) (h : 1 ≤ maxAttempts) :
    countInvokes (retrySpecTrace maxAttempts) = maxAttempts := by
  have hseg := countInvokes_flatMap_range' (maxAttempts - 1) 0
  simp only [retrySpecTrace, countInvokes, List.countP_append] at *
  simp [hseg, isInvoke, List.countP_cons]
  omega

lemma runCalls_joined (p : Nat) : ∀ (k : Nat) (s : DecState),
    s.initialized = false → s.initPromise = some p →
      runCalls k s = (List.replicate k (InitCallRes.joined p), s) := by
  intro k
  induction k with
  | zero => intro s _ _; simp [runCalls]
  | succ n ih =>
    intro s h1 h2
    have hcall : initializeDecoders s = (InitCallRes.joined p, s) := by
      simp [initializeDecoders, h1, h2]
    simp [runCalls, hcall, ih s h1 h2, List.replicate]

lemma qabs_eq_abs (q : ℚ) : qabs q = |q| := by
  by_cases h : q < 0
  · simp [qabs, h, abs_of_neg h]
  · simp [qabs, h, abs_of_nonneg (not_lt.mp h)]

lemma qabs_zero : qabs 0 = 0 := by simp [qabs]

lemma anyExceeds_eq_false_iff (actual expected : Vec3) (tolerance : ℚ) :
    anyExceeds (axisDiffs actual expected) tolerance = false ↔
      withinTolerance3 actual expected tolerance := by
  simp [anyExceeds, axisDiffs, withinTolerance3, not_lt, and_assoc]

lemma withinTolerance3_iff (actual expected : Vec3) (tolerance : ℚ) :
    withinTolerance3 actual expected tolerance ↔
      anyExceeds (axisDiffs actual expected) tolerance = false :=
  (anyExceeds_eq_false_iff actual expected tolerance).symm

/-! ## Claims -/

/-- Claim C1: for every operation that fails on every invocation and every
`maxRetries ≥ 1`, `loadAssetWithRetry` invokes the operation exactly
`maxRetries` times, waits `2 ^ (n - 1) * 1000` ms between attempt `n` and
attempt `n + 1`, performs no wait after the final failed attempt (the
produced trace equals `retrySpecTrace`, which interleaves exactly those
waits and ends on an invocation), and finally rejects with an
`AssetLoadError` whose `context.attempts` equals `maxRetries` and whose
`context.originalError` is the last error thrown. -/
theorem claim1_retry_bound (α : Type) (errs : Nat → Nat) (assetName : String)
    (maxRetries : Nat) (h : 1 ≤ maxRetries) :
    loadAssetWithRetry (α := α) (fun n => Except.error (errs n)) assetName maxRetries =
      (retrySpecTrace maxRetries,
        Except.error ⟨assetName, maxRetries, some (errs (maxRetries - 1))⟩) ∧
    countInvokes
        (loadAssetWithRetry (α := α) (fun n => Except.error (errs n)) assetName maxRetries).1 =
      maxRetries := by
  have key := loadAssetWithRetry_always_fails (α := α) errs assetName maxRetries h
  refine ⟨key, ?_⟩
  rw [key]
  exact countInvokes_retrySpecTrace maxRetries h

/-- Witness for C1: the always-failing operation at `maxRetries = 3`
produces the trace invoke, wait 1000 ms, invoke, wait 2000 ms, invoke, and
rejects with attempts 3 and the last error code 12. -/
theorem claim1_retry_bound_witness :
    1 ≤ 3 ∧
      (loadAssetWithRetry alwaysFailOp "truck.glb" 3 =
          (retrySpecTrace 3, Except.error ⟨"truck.glb", 3, some 12⟩) ∧
        countInvokes (loadAssetWithRetry alwaysFailOp "truck.glb" 3).1 = 3) :=
  ⟨by decide, claim1_retry_bound Unit (fun n => n + 10) "truck.glb" 3 (by decide)⟩

/-- Claim C3: `N ≥ 1` concurrent `initializeDecoders()` calls on a fresh
decoder singleton run `performInitialization` exactly once
(`bootstrapCount = 1`); every caller awaits the same in-flight promise
(id 0); on settlement all `N` callers observe the same outcome (all
resolve, or all reject); after a rejection the in-flight promise is
cleared, and a later call starts a fresh initialization (a second
bootstrap with a fresh promise id). -/
theorem claim3_single_flight (N : Nat) (h : 1 ≤ N) :
    (runCalls N freshDecoderState).2.bootstrapCount = 1 ∧
    (runCalls N freshDecoderState).1.map awaitedPid = List.replicate N (some 0) ∧
    (runCalls N freshDecoderState).1.map (callerOutcome true) = List.replicate N true ∧
    (runCalls N freshDecoderState).1.map (callerOutcome false) = List.replicate N false ∧
    (settleStarter false (runCalls N freshDecoderState).2).initPromise = none ∧
    (initializeDecoders (settleStarter false (runCalls N freshDecoderState).2)).1 =
      InitCallRes.started 1 ∧
    (initializeDecoders
        (settleStarter false (runCalls N freshDecoderState).2)).2.bootstrapCount = 2 := by
  cases N with
  | zero => omega
  | succ k =>
    have hfirst : initializeDecoders freshDecoderState =
        (InitCallRes.started 0, ⟨false, some 0, 1, 1⟩) := by rfl
    have hrest := runCalls_joined 0 k ⟨false, some 0, 1, 1⟩ rfl rfl
    have hrun : runCalls (k + 1) freshDecoderState =
        (InitCallRes.started 0 :: List.replicate k (InitCallRes.joined 0),
          ⟨false, some 0, 1, 1⟩) := by
      simp [runCalls, hfirst, hrest]
    rw [hrun]
    refine ⟨rfl, ?_, ?_, ?_, rfl, rfl, rfl⟩ <;>
      simp [awaitedPid, callerOutcome, List.map_replicate, List.replicate_succ]

/-- Witness for C3 at `N = 3`. -/
theorem claim3_single_flight_witness :
    1 ≤ 3 ∧
      ((runCalls 3 freshDecoderState).2.bootstrapCount = 1 ∧
        (runCalls 3 freshDecoderState).1.map awaitedPid = List.replicate 3 (some 0) ∧
        (runCalls 3 freshDecoderState).1.map (callerOutcome true) = List.replicate 3 true ∧
        (runCalls 3 freshDecoderState).1.map (callerOutcome false) = List.replicate 3 false ∧
        (settleStarter false (runCalls 3 freshDecoderState).2).initPromise = none ∧
        (initializeDecoders (settleStarter false (runCalls 3 freshDecoderState).2)).1 =
          InitCallRes.started 1 ∧
        (initializeDecoders
            (settleStarter false (runCalls 3 freshDecoderState).2)).2.bootstrapCount = 2) :=
  ⟨by decide, claim3_single_flight 3 (by decide)⟩

/-- Claim C6: calling the decoder singleton's `getInstance()` with no
configuration argument while no instance exists throws the configuration
error, the singleton variable stays empty, and no decoder bootstrap has
been attempted (total bootstrap count 0).  The thrown error is the
`ConfigurationError` of the spec's taxonomy: the source throws an `Error`
whose message states that the config is required for the first
initialization. -/
theorem claim6_get_instance_requires_config :
    getInstance none none =
        (Except.error
            (JsError.error "LazyDecoderLoader: config required for first initialization"),
          none) ∧
      totalBootstraps (getInstance none none).2 = 0 :=
  ⟨rfl, rfl⟩

/-- Claim C7 counterexample: getAssetPath does NOT collapse every double
slash — JavaScript's `replace` with a string pattern only replaces the
first occurrence, so with the default base path `"/"` the relative path
`"a//b"` resolves to `"/a//b"`, which still contains `"//"`. -/
theorem claim7_path_counterexample :
    getAssetPath "/" "a//b" = "/a//b" ∧
      containsDoubleSlash (getAssetPath "/" "a//b").data = true := by
  exact ⟨by decide, by decide⟩

/-- Claim C7 amended: `getAssetPath` is a total pure function; with the
default base path `"/"` it collapses only the first double slash, so for
every relative path that itself contains no `"//"`, the result starts with
exactly one leading slash and contains no `"//"` anywhere. -/
theorem claim7_path_amended (rel : List Char) (h : containsDoubleSlash rel = false) :
    exactlyOneLeadingSlash (getAssetPathChars ['/'] rel) = true ∧
      containsDoubleSlash (getAssetPathChars ['/'] rel) = false := by
  cases rel with
  | nil => exact ⟨by decide, by decide⟩
  | cons c rest =>
    by_cases hc : c = '/'
    · subst hc
      have hres : getAssetPathChars ['/'] ('/' :: rest) = '/' :: rest := by
        simp [getAssetPathChars, startsWithSlashChars, replaceFirst, isPrefixOfChars]
      rw [hres]
      have h2 : startsWithSlashChars rest = false ∧ containsDoubleSlash rest = false := by
        simpa [containsDoubleSlash] using h
      exact ⟨by simp [exactlyOneLeadingSlash, h2.1], h⟩
    · have hres : getAssetPathChars ['/'] (c :: rest) = '/' :: c :: rest := by
        simp [getAssetPathChars, startsWithSlashChars, replaceFirst, isPrefixOfChars, hc]
      rw [hres]
      have h3 : containsDoubleSlash rest = false := by
        simpa [containsDoubleSlash, hc] using h
      exact ⟨by simp [exactlyOneLeadingSlash, startsWithSlashChars, hc],
        by simp [containsDoubleSlash, startsWithSlashChars, hc, h3]⟩

/-- Witness for the amended C7 at the truck model path. -/
theorem claim7_path_amended_witness :
    containsDoubleSlash witRelPath = false ∧
      (exactlyOneLeadingSlash (getAssetPathChars ['/'] witRelPath) = true ∧
        containsDoubleSlash (getAssetPathChars ['/'] witRelPath) = false) :=
  ⟨by decide, claim7_path_amended witRelPath (by decide)⟩

/-- Claim C2: for every path whose first load succeeds, two sequential
successful `loadTexture(p)` calls on the same `AssetLoader` resolve with
the same underlying texture instance (the same heap id), while two
sequential successful `loadGLB(p)` calls resolve with distinct object
instances (distinct ids) that carry identical geometry/material content —
the second call returns a clone of the cached scene. -/
theorem claim2_cache_semantics (fetch : String → Option Nat) (s : LoaderState) (p : String)
    (c : Nat) (hmiss : alookup s.cache (getAssetPath s.basePath p) = none)
    (hfetch : fetch (getAssetPath s.basePath p) = some c) :
    (loadTexture fetch s p).1 = Except.ok s.nextId ∧
    (loadTexture fetch (loadTexture fetch s p).2 p).1 = Except.ok s.nextId ∧
    (loadGLB fetch s p).1 = Except.ok s.nextId ∧
    (loadGLB fetch (loadGLB fetch s p).2 p).1 = Except.ok (s.nextId + 1) ∧
    s.nextId ≠ s.nextId + 1 ∧
    alookup (loadGLB fetch (loadGLB fetch s p).2 p).2.heap s.nextId = some c ∧
    alookup (loadGLB fetch (loadGLB fetch s p).2 p).2.heap (s.nextId + 1) = some c := by
  have hne : s.nextId ≠ s.nextId + 1 := by omega
  have ht1 : loadTexture fetch s p =
      (Except.ok s.nextId,
        ⟨s.basePath, (s.nextId, c) :: s.heap,
          (getAssetPath s.basePath p, s.nextId) :: s.cache, s.nextId + 1⟩) := by
    simp [loadTexture, hmiss, hfetch]
  have ht2 : (loadTexture fetch (loadTexture fetch s p).2 p).1 = Except.ok s.nextId := by
    rw [ht1]
    simp [loadTexture, alookup]
  have hg1 : loadGLB fetch s p =
      (Except.ok s.nextId,
        ⟨s.basePath, (s.nextId, c) :: s.heap,
          (getAssetPath s.basePath p, s.nextId) :: s.cache, s.nextId + 1⟩) := by
    simp [loadGLB, hmiss, hfetch]
  have hg2 : loadGLB fetch (loadGLB fetch s p).2 p =
      (Except.ok (s.nextId + 1),
        ⟨s.basePath, (s.nextId + 1, c) :: (s.nextId, c) :: s.heap,
          (getAssetPath s.basePath p, s.nextId) :: s.cache, s.nextId + 2⟩) := by
    rw [hg1]
    simp [loadGLB, alookup]
  refine ⟨by rw [ht1], ht2, by rw [hg1], by rw [hg2], hne, ?_, ?_⟩
  · rw [hg2]
    simp [alookup, hne]
  · rw [hg2]
    simp [alookup]

/-- Witness for C2 on a fresh loader with base path `"/"`. -/
theorem claim2_cache_semantics_witness :
    alookup witLoader.cache (getAssetPath witLoader.basePath "model/truck.glb") = none ∧
    witFetch (getAssetPath witLoader.basePath "model/truck.glb") = some 42 ∧
    ((loadTexture witFetch witLoader "model/truck.glb").1 = Except.ok 0 ∧
      (loadTexture witFetch (loadTexture witFetch witLoader "model/truck.glb").2
          "model/truck.glb").1 = Except.ok 0 ∧
      (loadGLB witFetch witLoader "model/truck.glb").1 = Except.ok 0 ∧
      (loadGLB witFetch (loadGLB witFetch witLoader "model/truck.glb").2
          "model/truck.glb").1 = Except.ok 1 ∧
      (0 : Nat) ≠ 1 ∧
      alookup (loadGLB witFetch (loadGLB witFetch witLoader "model/truck.glb").2
          "model/truck.glb").2.heap 0 = some 42 ∧
      alookup (loadGLB witFetch (loadGLB witFetch witLoader "model/truck.glb").2
          "model/truck.glb").2.heap 1 = some 42) :=
  ⟨rfl, rfl, claim2_cache_semantics witFetch witLoader "model/truck.glb" 42 rfl rfl⟩

/-- Claim C10: the first successful `loadGLB(p)` call resolves with the
exact object instance stored in the cache (no clone on the initial load:
the returned id is the id the cache maps the resolved path to), so a
mutation performed through the first call's handle is visible in the
cached original, and a later `loadGLB(p)` call returns a distinct clone
carrying the mutated content. -/
theorem claim10_first_load_aliasing (fetch : String → Option Nat) (s : LoaderState)
    (p : String) (c c2 : Nat)
    (hmiss : alookup s.cache (getAssetPath s.basePath p) = none)
    (hfetch : fetch (getAssetPath s.basePath p) = some c) :
    (loadGLB fetch s p).1 = Except.ok s.nextId ∧
    alookup (loadGLB fetch s p).2.cache (getAssetPath s.basePath p) = some s.nextId ∧
    alookup (mutateModelContent (loadGLB fetch s p).2 s.nextId c2).heap s.nextId = some c2 ∧
    (loadGLB fetch (mutateModelContent (loadGLB fetch s p).2 s.nextId c2) p).1 =
      Except.ok (s.nextId + 1) ∧
    alookup (loadGLB fetch (mutateModelContent (loadGLB fetch s p).2 s.nextId c2) p).2.heap
      (s.nextId + 1) = some c2 := by
  have hg1 : loadGLB fetch s p =
      (Except.ok s.nextId,
        ⟨s.basePath, (s.nextId, c) :: s.heap,
          (getAssetPath s.basePath p, s.nextId) :: s.cache, s.nextId + 1⟩) := by
    simp [loadGLB, hmiss, hfetch]
  have hmut : mutateModelContent (loadGLB fetch s p).2 s.nextId c2 =
      ⟨s.basePath, (s.nextId, c2) :: (s.nextId, c) :: s.heap,
        (getAssetPath s.basePath p, s.nextId) :: s.cache, s.nextId + 1⟩ := by
    rw [hg1]
    rfl
  have hg2 : loadGLB fetch (mutateModelContent (loadGLB fetch s p).2 s.nextId c2) p =
      (Except.ok (s.nextId + 1),
        ⟨s.basePath, (s.nextId + 1, c2) :: (s.nextId, c2) :: (s.nextId, c) :: s.heap,
          (getAssetPath s.basePath p, s.nextId) :: s.cache, s.nextId + 2⟩) := by
    rw [hmut]
    simp [loadGLB, alookup]
  refine ⟨by rw [hg1], ?_, ?_, by rw [hg2], ?_⟩
  · rw [hg1]
    simp [alookup]
  · rw [hmut]
    simp [alookup]
  · rw [hg2]
    simp [alookup]

/-- Witness for C10 on a fresh loader: the handle returned by the first
load is the cached id 0; after mutating its content to 99, the clone
returned by the second load is id 1 and carries content 99. -/
theorem claim10_first_load_aliasing_witness :
    alookup witLoader.cache (getAssetPath witLoader.basePath "sensor.glb") = none ∧
    witFetch (getAssetPath witLoader.basePath "sensor.glb") = some 42 ∧
    ((loadGLB witFetch witLoader "sensor.glb").1 = Except.ok 0 ∧
      alookup (loadGLB witFetch witLoader "sensor.glb").2.cache
        (getAssetPath witLoader.basePath "sensor.glb") = some 0 ∧
      alookup (mutateModelContent (loadGLB witFetch witLoader "sensor.glb").2 0 99).heap 0 =
        some 99 ∧
      (loadGLB witFetch
          (mutateModelContent (loadGLB witFetch witLoader "sensor.glb").2 0 99)
          "sensor.glb").1 = Except.ok 1 ∧
      alookup (loadGLB witFetch
          (mutateModelContent (loadGLB witFetch witLoader "sensor.glb").2 0 99)
          "sensor.glb").2.heap 1 = some 99) :=
  ⟨rfl, rfl, claim10_first_load_aliasing witFetch witLoader "sensor.glb" 42 99 rfl rfl⟩

/-- Claim C4: when the retried load fails on every attempt,
`loadGLBWithPlaceholder` leaves the placeholder attached (the scene root's
children are exactly the original children plus the placeholder, which is
neither duplicated nor removed — count 1, child count unchanged since the
attach), disposes nothing, and propagates the exhausted-retry
`AssetLoadError`; when the retried load succeeds, it removes and disposes
the placeholder and resolves with the real model. -/
theorem claim4_placeholder_swap (errs : Nat → Nat) (op2 : Nat → Except Nat Nat) (p : String)
    (children : List Nat) (ph m : Nat) (hph : ph ∉ children)
    (hok : (loadAssetWithRetry op2 p 3).2 = Except.ok m) :
    loadGLBWithPlaceholder (fun n => Except.error (errs n)) p children ph =
        ⟨children ++ [ph], [], Except.error ⟨p, 3, some (errs 2)⟩⟩ ∧
      (loadGLBWithPlaceholder (fun n => Except.error (errs n)) p children ph).children.count ph
        = 1 ∧
      (loadGLBWithPlaceholder (fun n => Except.error (errs n)) p children ph).children.length
        = children.length + 1 ∧
      loadGLBWithPlaceholder op2 p children ph = ⟨children, [ph], Except.ok m⟩ := by
  have hfail := loadAssetWithRetry_always_fails (α := Nat) errs p 3 (by omega)
  have h1 : loadGLBWithPlaceholder (fun n => Except.error (errs n)) p children ph =
      ⟨children ++ [ph], [], Except.error ⟨p, 3, some (errs 2)⟩⟩ := by
    simp [loadGLBWithPlaceholder, hfail]
  have hcount : (children ++ [ph]).count ph = 1 := by
    simp [List.count_append, List.count_eq_zero.mpr hph]
  have h4 : loadGLBWithPlaceholder op2 p children ph = ⟨children, [ph], Except.ok m⟩ := by
    simp only [loadGLBWithPlaceholder, hok]
    rw [List.erase_append_right _ hph]
    simp
  refine ⟨h1, ?_, ?_, h4⟩
  · rw [h1]
    exact hcount
  · rw [h1]
    simp

/-- Witness for C4: failing loads keep the placeholder (id 5) attached to
the scene root and reject with attempts 3; a succeeding load removes and
disposes it and resolves with the real model (id 7). -/
theorem claim4_placeholder_swap_witness :
    (5 : Nat) ∉ ([100, 200] : List Nat) ∧
    (loadAssetWithRetry witPhOkOp "m.glb" 3).2 = Except.ok 7 ∧
    (loadGLBWithPlaceholder witPhFailOp "m.glb" [100, 200] 5 =
        ⟨[100, 200, 5], [], Except.error ⟨"m.glb", 3, some 3⟩⟩ ∧
      (loadGLBWithPlaceholder witPhFailOp "m.glb" [100, 200] 5).children.count 5 = 1 ∧
      (loadGLBWithPlaceholder witPhFailOp "m.glb" [100, 200] 5).children.length = 3 ∧
      loadGLBWithPlaceholder witPhOkOp "m.glb" [100, 200] 5 =
        ⟨[100, 200], [5], Except.ok 7⟩) :=
  ⟨by decide, by decide,
    claim4_placeholder_swap (fun n => n + 1) witPhOkOp "m.glb" [100, 200] 5 7 (by decide)
      (by decide)⟩

/-- Claim C5: with validation enabled and the configuration loaded,
`validateTransforms(objectName, object, tolerance)` returns `valid = true`
with an empty error list if and only if, for each of position, rotation and
(expanded) scale, the absolute per-axis difference between the live value
and the configured value is within the tolerance on every axis; each of
the attributes with an exceeding axis makes the result invalid and adds
exactly one error naming the mismatch with the expected and actual values;
and when the configuration has no entry for the requested name, a warning
is recorded and `valid` stays true. -/
theorem claim5_validate_transforms (cfg : List (String × ObjTransform))
    (objectName missingName : String) (object : Obj3D) (tolerance : ℚ) (t : ObjTransform)
    (fetch : Except String (List (String × ObjTransform)))
    (hl : alookup cfg objectName = some t) (hn : alookup cfg missingName = none) :
    (((validateTransforms true fetch ⟨some cfg⟩ objectName object tolerance).1.valid = true ∧
        (validateTransforms true fetch ⟨some cfg⟩ objectName object tolerance).1.errors = [])
      ↔ (withinTolerance3 object.position t.position tolerance ∧
          withinTolerance3 object.rotation t.rotation tolerance ∧
          withinTolerance3 object.scale (expandScale t.scale) tolerance)) ∧
    (¬ withinTolerance3 object.position t.position tolerance →
      (validateTransforms true fetch ⟨some cfg⟩ objectName object tolerance).1.valid = false ∧
      (validateTransforms true fetch ⟨some cfg⟩ objectName object tolerance).1.errors.count
        (VError.positionMismatch objectName t.position object.position) = 1) ∧
    (¬ withinTolerance3 object.rotation t.rotation tolerance →
      (validateTransforms true fetch ⟨some cfg⟩ objectName object tolerance).1.valid = false ∧
      (validateTransforms true fetch ⟨some cfg⟩ objectName object tolerance).1.errors.count
        (VError.rotationMismatch objectName t.rotation object.rotation) = 1) ∧
    (¬ withinTolerance3 object.scale (expandScale t.scale) tolerance →
      (validateTransforms true fetch ⟨some cfg⟩ objectName object tolerance).1.valid = false ∧
      (validateTransforms true fetch ⟨some cfg⟩ objectName object tolerance).1.errors.count
        (VError.scaleMismatch objectName (expandScale t.scale) object.scale) = 1) ∧
    (validateTransforms true fetch ⟨some cfg⟩ missingName object tolerance).1 =
      ⟨true, [], [VWarning.noConfig missingName]⟩ := by
  have hmain : (validateTransforms true fetch ⟨some cfg⟩ objectName object tolerance).1 =
      validateTransformsPure cfg objectName object tolerance := by
    simp [validateTransforms]
  have hmiss : (validateTransforms true fetch ⟨some cfg⟩ missingName object tolerance).1 =
      ⟨true, [], [VWarning.noConfig missingName]⟩ := by
    simp [validateTransforms, validateTransformsPure, hn]
  refine ⟨?_, ?_, ?_, ?_, hmiss⟩ <;>
    rw [hmain] <;>
    simp only [validateTransformsPure, hl, withinTolerance3_iff] <;>
    cases hp : anyExceeds (axisDiffs object.position t.position) tolerance <;>
    cases hr : anyExceeds (axisDiffs object.rotation t.rotation) tolerance <;>
    cases hs : anyExceeds (axisDiffs object.scale (expandScale t.scale)) tolerance <;>
    simp [hp, hr, hs, List.count_cons, List.count_append]

/-- Witness for C5 at Scenario B: the truck entry exists, a ghost entry
does not, and the live position is 0.05 off on Z, so validation fails with
exactly one position-mismatch error; the ghost lookup yields a warning
with `valid` still true. -/
theorem claim5_validate_transforms_witness :
    alookup witCfg "truck" = some witTruckTransform ∧
    alookup witCfg "ghost" = none ∧
    (validateTransforms true (Except.error "") ⟨some witCfg⟩ "truck" witTruckObj
        (1/1000)).1.valid = false ∧
    (¬ withinTolerance3 witTruckObj.position witTruckTransform.position (1/1000) →
      (validateTransforms true (Except.error "") ⟨some witCfg⟩ "truck" witTruckObj
          (1/1000)).1.valid = false ∧
      (validateTransforms true (Except.error "") ⟨some witCfg⟩ "truck" witTruckObj
          (1/1000)).1.errors.count
        (VError.positionMismatch "truck" witTruckTransform.position witTruckObj.position)
        = 1) ∧
    (validateTransforms true (Except.error "") ⟨some witCfg⟩ "ghost" witTruckObj (1/1000)).1 =
      ⟨true, [], [VWarning.noConfig "ghost"]⟩ := by
  have h := claim5_validate_transforms witCfg "truck" "ghost" witTruckObj (1/1000)
    witTruckTransform (Except.error "") rfl rfl
  exact ⟨rfl, rfl, by decide, h.2.1, h.2.2.2.2⟩

/-- Claim C8 counterexample: `captureSnapshot` does mutate the live object
when its cached world matrix is stale — the forced
`updateMatrixWorld(true)` overwrites the stale matrix, so the object is
not unchanged in every field. -/
theorem claim8_capture_counterexample :
    (captureSnapshot staleTruck 0 none).2 ≠ staleTruck := by decide

/-- Claim C8 amended: `captureSnapshot` never changes the object's
position, rotation, scale or name; the forced world-matrix update
recomputes the cached `matrixWorld` from the current transform (so only a
stale cached matrix can change), and an object whose matrix is already up
to date is left entirely unchanged. -/
theorem claim8_capture_amended (o : Obj3D) (now : Nat) (env : Option String) :
    (captureSnapshot o now env).2.position = o.position ∧
    (captureSnapshot o now env).2.rotation = o.rotation ∧
    (captureSnapshot o now env).2.scale = o.scale ∧
    (captureSnapshot o now env).2.name = o.name ∧
    (captureSnapshot o now env).2.matrixWorld = (o.position, o.rotation, o.scale) ∧
    (o.matrixWorld = (o.position, o.rotation, o.scale) → (captureSnapshot o now env).2 = o) := by
  cases o with
  | mk n p r sc mw =>
    refine ⟨rfl, rfl, rfl, rfl, rfl, ?_⟩
    intro h
    simp only at h
    rw [captureSnapshot, updateMatrixWorld]
    simp [h]

/-- Witness for the amended C8 at an object with an up-to-date matrix. -/
theorem claim8_capture_amended_witness :
    freshSnapObj.matrixWorld =
        (freshSnapObj.position, freshSnapObj.rotation, freshSnapObj.scale) ∧
      (captureSnapshot freshSnapObj 5 (some "local")).2 = freshSnapObj ∧
      (captureSnapshot freshSnapObj 5 (some "local")).2.position = freshSnapObj.position := by
  have h := claim8_capture_amended freshSnapObj 5 (some "local")
  exact ⟨by decide, h.2.2.2.2.2 (by decide), h.1⟩

/-- Claim C9: comparing a snapshot with itself yields all-zero per-axis
and maximal differences, `withinTolerance = true` (for a non-negative
tolerance) and no issues; and two consecutive `validateTransforms` calls
with no intervening mutation produce identical results (and leave the
memoized configuration state identical). -/
theorem claim9_validation_idempotent (tolerance : ℚ) (s : TransformSnapshot) (e : Bool)
    (fetch : Except String (List (String × ObjTransform))) (st : SceneInitializerState)
    (objectName : String) (object : Obj3D) (htol : 0 ≤ tolerance) :
    compareSnapshots tolerance s s =
      ⟨s.name, ⟨0, 0, 0⟩, ⟨0, 0, 0⟩, ⟨0, 0, 0⟩, 0, 0, 0, true, []⟩ ∧
    (validateTransforms e fetch (validateTransforms e fetch st objectName object tolerance).2
        objectName object tolerance).1 =
      (validateTransforms e fetch st objectName object tolerance).1 ∧
    (validateTransforms e fetch (validateTransforms e fetch st objectName object tolerance).2
        objectName object tolerance).2 =
      (validateTransforms e fetch st objectName object tolerance).2 := by
  have hdec : decide (0 ≤ tolerance) = true := decide_eq_true htol
  have hnlt : ¬ tolerance < 0 := not_lt.mpr htol
  refine ⟨?_, ?_, ?_⟩
  · simp [compareSnapshots, axisDiffs, sub_self, qabs_zero, max_self, hdec, hnlt]
  · cases e with
    | false => simp [validateTransforms]
    | true =>
      rcases st with ⟨tr⟩
      cases tr with
      | some cfg => simp [validateTransforms]
      | none =>
        cases fetch with
        | ok cfg => simp [validateTransforms]
        | error msg => simp [validateTransforms]
  · cases e with
    | false => simp [validateTransforms]
    | true =>
      rcases st with ⟨tr⟩
      cases tr with
      | some cfg => simp [validateTransforms]
      | none =>
        cases fetch with
        | ok cfg => simp [validateTransforms]
        | error msg => simp [validateTransforms]

/-- Witness for C9 at tolerance 0.001, a concrete snapshot, and a fresh
initializer whose configuration fetch fails. -/
theorem claim9_validation_idempotent_witness :
    (0 : ℚ) ≤ 1/1000 ∧
    compareSnapshots (1/1000) witSnap witSnap =
      ⟨"truck", ⟨0, 0, 0⟩, ⟨0, 0, 0⟩, ⟨0, 0, 0⟩, 0, 0, 0, true, []⟩ ∧
    (validateTransforms true (Except.error "boom")
        (validateTransforms true (Except.error "boom") ⟨none⟩ "truck" witTruckObj (1/1000)).2
        "truck" witTruckObj (1/1000)).1 =
      (validateTransforms true (Except.error "boom") ⟨none⟩ "truck" witTruckObj (1/1000)).1 := by
  have h := claim9_validation_idempotent (1/1000) witSnap true (Except.error "boom") ⟨none⟩
    "truck" witTruckObj (by norm_num)
  exact ⟨by norm_num, h.1, h.2.1⟩

end Coming22
